import Mathlib

/-
Verification of the date-ledger logic of toyota.py (Reporter.print_order,
Reporter._load_dates, Reporter._save_dates and the module global DATE_STRUCT).

Python dicts (3.7+) are insertion-ordered; we embed them as association
lists with Python assignment semantics: assigning to an existing key keeps
its position, assigning to a fresh key appends it at the end.
-/

namespace Toyota

/-- Python dict lookup `d.get(k)` / membership `k in d` on an
insertion-ordered dict, embedded as an association list. -/
def lookupA {α : Type} : List (String × α) → String → Option α
  | [], _ => none
  | (k, v) :: rest, key => if k = key then some v else lookupA rest key

/-- Python dict assignment `d[k] = v`: an existing key keeps its position
and gets the new value, a fresh key is appended at the end. -/
def setA {α : Type} : List (String × α) → String → α → List (String × α)
  | [], key, v => [(key, v)]
  | (k, w) :: rest, key, v =>
    if k = key then (key, v) :: rest else (k, w) :: setA rest key v

/-- A map from status value (resp. visited state) to the date it was first
observed, in insertion order. -/
abbrev DateMap := List (String × String)

/-- The per-order date ledger: `steps` maps step name to its date map,
`deliveries` maps location code to its date map (toyota.py stores this as a
nested dict with keys "steps" and "deliveries"). -/
structure Ledger where
  steps : List (String × DateMap)
  deliveries : List (String × DateMap)
deriving DecidableEq, Repr

/-- toyota.py line 17: the module-level dict literal with empty "steps" and
"deliveries" sub-dicts, used as the fallback when no ledger file exists.
This is its initial value; Python mutates the object in place. -/
def DATE_STRUCT : Ledger := { steps := [], deliveries := [] }

/-- Render one recorded pair as status-colon-space-date (toyota.py line 211,
the f-string inside the join). -/
def datePair (p : String × String) : String := p.1 ++ ": " ++ p.2

/-- toyota.py lines 198-213, the step branch of the tracking loop:
ensure the step key exists, record the first-seen date for a non-sentinel
status not seen before, and return the updated ledger together with the
annotation joined with " | " from the step entry after the update. -/
def recordStepObservation (dates : Ledger) (k status today : String) :
    Ledger × String :=
  let steps0 := if lookupA dates.steps k = none then setA dates.steps k [] else dates.steps
  let entry := (lookupA steps0 k).getD []
  let steps1 :=
    if lookupA entry status = none ∧ status ≠ "pending" then
      setA steps0 k (setA entry status today)
    else steps0
  let entry1 := (lookupA steps1 k).getD []
  ({ dates with steps := steps1 }, String.intercalate " | " (entry1.map datePair))

/-- toyota.py lines 252-269, the delivery branch of the tracking loop:
same shape as the step branch, keyed by location code with sentinel
"notVisited", acting on the `deliveries` sub-mapping. -/
def recordDeliveryObservation (dates : Ledger) (locationCode isVisited today : String) :
    Ledger × String :=
  let dels0 :=
    if lookupA dates.deliveries locationCode = none then
      setA dates.deliveries locationCode []
    else dates.deliveries
  let entry := (lookupA dels0 locationCode).getD []
  let dels1 :=
    if lookupA entry isVisited = none ∧ isVisited ≠ "notVisited" then
      setA dels0 locationCode (setA entry isVisited today)
    else dels0
  let entry1 := (lookupA dels1 locationCode).getD []
  ({ dates with deliveries := dels1 }, String.intercalate " | " (entry1.map datePair))

/-- Date recorded in the ledger for status `s` of step `k`, if any. -/
def stepDate (l : Ledger) (k s : String) : Option String :=
  (lookupA l.steps k).bind (fun m => lookupA m s)

/-- Date recorded in the ledger for visited state `s` of location `loc`, if any. -/
def deliveryDate (l : Ledger) (loc s : String) : Option String :=
  (lookupA l.deliveries loc).bind (fun m => lookupA m s)

/-- The entry standing under key `k` of the `steps` mapping after one
`recordStepObservation` call (the value the annotation is built from). -/
def stepEntryAfter (l : Ledger) (k s d : String) : DateMap :=
  let e0 := (lookupA l.steps k).getD []
  if lookupA e0 s = none ∧ s ≠ "pending" then setA e0 s d else e0

/-- The entry standing under key `loc` of the `deliveries` mapping after one
`recordDeliveryObservation` call. -/
def deliveryEntryAfter (l : Ledger) (loc v d : String) : DateMap :=
  let e0 := (lookupA l.deliveries loc).getD []
  if lookupA e0 v = none ∧ v ≠ "notVisited" then setA e0 v d else e0

/-- One step of the order snapshot (a value of the steps dict under
`order["preprocessed"]`): `status` is the "status" field, `location` holds
the "location" field with its empty-string default already applied. -/
structure StepState where
  location : String
  status : String
deriving DecidableEq, Repr

/-- One entry of `order["intermediateDeliveries"]`. -/
structure DeliveryEvent where
  locationCode : String
  countryCode : String
  locationName : String
  countryName : String
  destinationType : String
  transportMethod : String
  isVisited : String
deriving DecidableEq, Repr

/-- Step loop of print_order with store_dates true (toyota.py lines 194-213):
fold the tracking call over the steps dict, collecting one row
`[k, location, status, annotation]` per step. -/
def stepRowsTracked (dates : Ledger) (steps : List (String × StepState)) (today : String) :
    Ledger × List (List String) :=
  steps.foldl
    (fun acc kv =>
      let r := recordStepObservation acc.1 kv.1 kv.2.status today
      (r.1, acc.2 ++ [[kv.1, kv.2.location, kv.2.status, r.2]]))
    (dates, [])

/-- Step loop of print_order with store_dates false: rows
`[k, location, status]`, no ledger involved. -/
def stepRowsPlain (steps : List (String × StepState)) : List (List String) :=
  steps.map (fun kv => [kv.1, kv.2.location, kv.2.status])

/-- Delivery loop of print_order with store_dates true (toyota.py lines
241-269): fold the tracking call over the deliveries sequence, keyed by
location code. -/
def deliveryRowsTracked (dates : Ledger) (deliveries : List DeliveryEvent) (today : String) :
    Ledger × List (List String) :=
  deliveries.foldl
    (fun acc d =>
      let r := recordDeliveryObservation acc.1 d.locationCode d.isVisited today
      (r.1, acc.2 ++
        [[d.locationCode ++ ", " ++ d.countryCode, d.locationName ++ ", " ++ d.countryName,
          d.destinationType, d.transportMethod, d.isVisited, r.2]]))
    (dates, [])

/-- Delivery loop of print_order with store_dates false. -/
def deliveryRowsPlain (deliveries : List DeliveryEvent) : List (List String) :=
  deliveries.map (fun d =>
    [d.locationCode ++ ", " ++ d.countryCode, d.locationName ++ ", " ++ d.countryName,
     d.destinationType, d.transportMethod, d.isVisited])

/-- The persisted file store: association list from file name to file
content. A stored `some l` is text that parses back (json.load inverts
json.dump on these nested string dicts); a stored `none` is a file whose
content is not parseable, on which json.load raises. -/
abbrev FS := List (String × Option Ledger)

/-- toyota.py lines 129-139 (Reporter._load_dates), with the global
DATE_STRUCT value and the file store passed explicitly: if the file does
not exist the result is the DATE_STRUCT object itself (Python binds
`dates = DATE_STRUCT`, an alias, not a copy); if it exists its content is
parsed by json.load, whose failure on malformed content propagates
(no try/except in the source), modelled as `Except.error`. -/
def load_dates (g : Ledger) (fs : FS) (filename : String) :
    Except String (String × Ledger) :=
  match lookupA fs filename with
  | none => .ok (filename, g)
  | some none => .error "json.load: malformed ledger file"
  | some (some l) => .ok (filename, l)

/-- toyota.py lines 141-144 (Reporter._save_dates): json.dump the ledger
over the file, overwriting prior content. -/
def save_dates (fs : FS) (dates_file : String) (dates : Ledger) : FS :=
  setA fs dates_file (some dates)

/-- Observable outcome of one Reporter.print_order call: the value of the
DATE_STRUCT global after the call, the file store after the call, and the
two tables (header row included when non-empty) handed to _print_table. -/
structure OrderResult where
  g : Ledger
  fs : FS
  stepTable : List (List String)
  deliveryTable : List (List String)
deriving DecidableEq, Repr

/-- toyota.py lines 146-291 (Reporter.print_order), restricted to its
ledger- and table-observable behaviour. With store_dates the ledger is
loaded (line 150), both tracking loops run, and the ledger is saved
unconditionally (line 291). When the loaded ledger is the absent-file
fallback, Python has aliased the module global DATE_STRUCT, so every
in-place mutation done by the loops lands in the global as well: the
returned `g` is then the final ledger. Purely printed lines (status,
vehicle, VIN, ...) are not modelled. -/
def print_order (g : Ledger) (fs : FS) (orderId : String)
    (steps : List (String × StepState)) (deliveries : List DeliveryEvent)
    (today : String) (store_dates : Bool) : Except String OrderResult :=
  if store_dates then do
    let (dates_file, dates) ← load_dates g fs (orderId ++ ".json")
    let fileAbsent := lookupA fs dates_file = none
    let r1 := stepRowsTracked dates steps today
    let r2 := deliveryRowsTracked r1.1 deliveries today
    let fs1 := save_dates fs dates_file r2.1
    .ok { g := if fileAbsent then r2.1 else g
          fs := fs1
          stepTable :=
            if steps.isEmpty then [] else ["Step", "Location", "Status", "Dates"] :: r1.2
          deliveryTable :=
            if deliveries.isEmpty then []
            else ["Loc. Code", "Location", "Loc. Type", "Transport", "Visited", "Dates"] :: r2.2 }
  else
    .ok { g := g
          fs := fs
          stepTable :=
            if steps.isEmpty then [] else ["Step", "Location", "Status"] :: stepRowsPlain steps
          deliveryTable :=
            if deliveries.isEmpty then []
            else ["Loc. Code", "Location", "Loc. Type", "Transport", "Visited"] ::
              deliveryRowsPlain deliveries }

/-- Ledger state after `n` repetitions of the same step observation. -/
def recordStepIter (l : Ledger) (k s d : String) : Nat → Ledger
  | 0 => l
  | n + 1 => (recordStepObservation (recordStepIter l k s d n) k s d).1

/-- Annotation string returned by call number `i` (1-based) in a run of
identical step observations. -/
def recordStepAnn (l : Ledger) (k s d : String) (i : Nat) : String :=
  (recordStepObservation (recordStepIter l k s d (i - 1)) k s d).2

/-
Helper lemmas about the embedded dict operations and the two tracking
primitives.
-/

@[simp]
theorem lookupA_nil {α : Type} (key : String) :
    lookupA ([] : List (String × α)) key = none := rfl

theorem lookupA_cons {α : Type} (k : String) (v : α) (rest : List (String × α)) (key : String) :
    lookupA ((k, v) :: rest) key = if k = key then some v else lookupA rest key := rfl

@[simp]
theorem lookupA_setA_self {α : Type} (l : List (String × α)) (key : String) (v : α) :
    lookupA (setA l key v) key = some v := by
  induction l with
  | nil => simp [setA, lookupA]
  | cons hd tl ih =>
    obtain ⟨k, w⟩ := hd
    by_cases h : k = key
    · simp [setA, lookupA, h]
    · simp [setA, lookupA, h, ih]

theorem lookupA_setA_ne {α : Type} (l : List (String × α)) (key key' : String) (v : α)
    (h : key' ≠ key) : lookupA (setA l key v) key' = lookupA l key' := by
  induction l with
  | nil =>
    simp [setA, lookupA]
    exact fun hc => absurd hc.symm h
  | cons hd tl ih =>
    obtain ⟨k, w⟩ := hd
    by_cases hk : k = key
    · subst hk
      have hk' : ¬k = key' := fun hc => absurd hc.symm h
      simp [setA, lookupA, hk']
    · simp [setA, lookupA, hk, ih]

@[simp]
theorem setA_setA {α : Type} (l : List (String × α)) (k : String) (v w : α) :
    setA (setA l k v) k w = setA l k w := by
  induction l with
  | nil => simp [setA]
  | cons hd tl ih =>
    obtain ⟨k0, v0⟩ := hd
    by_cases h : k0 = k <;> simp [setA, h, ih]

theorem setA_lookup_self {α : Type} (l : List (String × α)) (k : String) (v : α)
    (h : lookupA l k = some v) : setA l k v = l := by
  induction l with
  | nil => simp [lookupA] at h
  | cons hd tl ih =>
    obtain ⟨k0, v0⟩ := hd
    by_cases hk : k0 = k
    · subst hk
      simp [lookupA] at h
      simp [setA, h]
    · simp [lookupA, hk] at h
      simp [setA, hk, ih h]

theorem intercalate_one (s a : String) : String.intercalate s [a] = a := by
  simp [String.intercalate, String.intercalate.go]

theorem intercalate_two (s a b : String) : String.intercalate s [a, b] = a ++ s ++ b := by
  simp [String.intercalate, String.intercalate.go]

/-- Normal form of one step observation: the steps mapping is updated at `k`
with the entry `stepEntryAfter`, and the annotation is built from that entry. -/
theorem recordStep_eq (l : Ledger) (k s d : String) :
    recordStepObservation l k s d
      = ({ l with steps := setA l.steps k (stepEntryAfter l k s d) },
         String.intercalate " | " ((stepEntryAfter l k s d).map datePair)) := by
  cases hk : lookupA l.steps k with
  | none =>
    by_cases hp : s = "pending"
    · subst hp
      simp [recordStepObservation, stepEntryAfter, hk, lookupA_setA_self]
    · simp [recordStepObservation, stepEntryAfter, hk, hp, lookupA_setA_self, setA_setA]
  | some m =>
    by_cases hc : lookupA m s = none ∧ s ≠ "pending"
    · simp [recordStepObservation, stepEntryAfter, hk, hc, lookupA_setA_self]
    · simp [recordStepObservation, stepEntryAfter, hk, hc, setA_lookup_self l.steps k m hk]

/-- Normal form of one delivery observation, mirror of `recordStep_eq`. -/
theorem recordDelivery_eq (l : Ledger) (loc v d : String) :
    recordDeliveryObservation l loc v d
      = ({ l with deliveries := setA l.deliveries loc (deliveryEntryAfter l loc v d) },
         String.intercalate " | " ((deliveryEntryAfter l loc v d).map datePair)) := by
  cases hk : lookupA l.deliveries loc with
  | none =>
    by_cases hp : v = "notVisited"
    · subst hp
      simp [recordDeliveryObservation, deliveryEntryAfter, hk, lookupA_setA_self]
    · simp [recordDeliveryObservation, deliveryEntryAfter, hk, hp, lookupA_setA_self, setA_setA]
  | some m =>
    by_cases hc : lookupA m v = none ∧ v ≠ "notVisited"
    · simp [recordDeliveryObservation, deliveryEntryAfter, hk, hc, lookupA_setA_self]
    · simp [recordDeliveryObservation, deliveryEntryAfter, hk, hc,
        setA_lookup_self l.deliveries loc m hk]

/-- After a first observation of `(k, s)`, a second observation of the same
pair finds its entry unchanged, whatever date the second call carries. -/
theorem stepEntryAfter_idem (l : Ledger) (k s d d' : String) :
    stepEntryAfter ((recordStepObservation l k s d).1) k s d' = stepEntryAfter l k s d := by
  have hE : lookupA ((recordStepObservation l k s d).1).steps k
      = some (stepEntryAfter l k s d) := by
    rw [recordStep_eq]
    exact lookupA_setA_self _ _ _
  have hcond : ¬(lookupA (stepEntryAfter l k s d) s = none ∧ s ≠ "pending") := by
    rintro ⟨h1, h2⟩
    simp only [stepEntryAfter] at h1
    by_cases hc : lookupA ((lookupA l.steps k).getD []) s = none ∧ s ≠ "pending"
    · rw [if_pos hc, lookupA_setA_self] at h1
      exact Option.noConfusion h1
    · rw [if_neg hc] at h1
      exact hc ⟨h1, h2⟩
  generalize hG : stepEntryAfter l k s d = E at hE hcond ⊢
  simp [stepEntryAfter, hE, hcond]

theorem deliveryEntryAfter_idem (l : Ledger) (loc v d d' : String) :
    deliveryEntryAfter ((recordDeliveryObservation l loc v d).1) loc v d'
      = deliveryEntryAfter l loc v d := by
  have hE : lookupA ((recordDeliveryObservation l loc v d).1).deliveries loc
      = some (deliveryEntryAfter l loc v d) := by
    rw [recordDelivery_eq]
    exact lookupA_setA_self _ _ _
  have hcond : ¬(lookupA (deliveryEntryAfter l loc v d) v = none ∧ v ≠ "notVisited") := by
    rintro ⟨h1, h2⟩
    simp only [deliveryEntryAfter] at h1
    by_cases hc : lookupA ((lookupA l.deliveries loc).getD []) v = none ∧ v ≠ "notVisited"
    · rw [if_pos hc, lookupA_setA_self] at h1
      exact Option.noConfusion h1
    · rw [if_neg hc] at h1
      exact hc ⟨h1, h2⟩
  generalize hG : deliveryEntryAfter l loc v d = E at hE hcond ⊢
  simp [deliveryEntryAfter, hE, hcond]

/-- Observing the same `(stepName, status)` pair again, on any later date,
changes nothing: same resulting ledger, same annotation. -/
theorem recordStep_again (l : Ledger) (k s d d' : String) :
    recordStepObservation ((recordStepObservation l k s d).1) k s d'
      = recordStepObservation l k s d := by
  have hidem := stepEntryAfter_idem l k s d d'
  rw [recordStep_eq ((recordStepObservation l k s d).1) k s d', hidem,
    recordStep_eq l k s d]
  simp [setA_setA]

theorem recordDelivery_again (l : Ledger) (loc v d d' : String) :
    recordDeliveryObservation ((recordDeliveryObservation l loc v d).1) loc v d'
      = recordDeliveryObservation l loc v d := by
  have hidem := deliveryEntryAfter_idem l loc v d d'
  rw [recordDelivery_eq ((recordDeliveryObservation l loc v d).1) loc v d', hidem,
    recordDelivery_eq l loc v d]
  simp [setA_setA]

/-- Iterating the same step observation reaches its fixed point at the
first call. -/
theorem recordStepIter_stable (l : Ledger) (k s d : String) (n : Nat) (hn : 1 ≤ n) :
    recordStepIter l k s d n = recordStepIter l k s d 1 := by
  induction n with
  | zero => exact absurd hn (by decide)
  | succ m ih =>
    cases Nat.lt_or_ge m 1 with
    | inl h =>
      have hm : m = 0 := Nat.lt_one_iff.mp h
      subst hm
      rfl
    | inr h =>
      show (recordStepObservation (recordStepIter l k s d m) k s d).1 = _
      rw [ih h]
      show (recordStepObservation ((recordStepObservation l k s d).1) k s d).1 = _
      rw [recordStep_again]
      rfl

example :
    recordStepObservation DATE_STRUCT "PRODUCTION" "completed" "2024-01-15"
      = (⟨[("PRODUCTION", [("completed", "2024-01-15")])], []⟩, "completed: 2024-01-15") := by
  decide

example :
    (recordStepObservation
        (recordStepObservation DATE_STRUCT "X" "inTransit" "2024-01-15").1
        "X" "delivered" "2024-01-20").2
      = "inTransit: 2024-01-15 | delivered: 2024-01-20" := by decide

example :
    recordStepObservation DATE_STRUCT "X" "pending" "2024-01-15"
      = (⟨[("X", [])], []⟩, "") := by decide

/-
Claim theorems.
-/

/-- C1: once a date has been recorded under a (stepName, status) pair, a
later observation of the same pair with a different date leaves it
unchanged; the same holds for (locationCode, visitedState) pairs in the
deliveries mapping. -/
theorem first_observed_date_never_overwritten
    (l : Ledger) (X s d1 d2 loc vs e1 e2 : String)
    (hs : s ≠ "pending") (hX : lookupA l.steps X = none) (hd : d2 ≠ d1)
    (hvs : vs ≠ "notVisited") (hloc : lookupA l.deliveries loc = none) (he : e2 ≠ e1) :
    stepDate (recordStepObservation ((recordStepObservation l X s d1).1) X s d2).1 X s
      = some d1
    ∧ deliveryDate
        (recordDeliveryObservation ((recordDeliveryObservation l loc vs e1).1) loc vs e2).1
        loc vs = some e1 := by
  constructor
  · rw [recordStep_again, recordStep_eq]
    simp [stepDate, stepEntryAfter, hX, hs, lookupA_setA_self, setA, lookupA]
  · rw [recordDelivery_again, recordDelivery_eq]
    simp [deliveryDate, deliveryEntryAfter, hloc, hvs, lookupA_setA_self, setA, lookupA]

/-- Witness for C1 at concrete inputs. -/
theorem first_observed_date_never_overwritten_witness :
    ("inTransit" : String) ≠ "pending" ∧ ("2024-01-20" : String) ≠ "2024-01-15"
    ∧ stepDate (recordStepObservation
        ((recordStepObservation DATE_STRUCT "X" "inTransit" "2024-01-15").1)
        "X" "inTransit" "2024-01-20").1 "X" "inTransit" = some "2024-01-15"
    ∧ deliveryDate (recordDeliveryObservation
        ((recordDeliveryObservation DATE_STRUCT "L1" "visited" "2024-01-15").1)
        "L1" "visited" "2024-01-20").1 "L1" "visited" = some "2024-01-15" :=
  ⟨by decide, by decide,
   (first_observed_date_never_overwritten DATE_STRUCT "X" "inTransit" "2024-01-15" "2024-01-20"
      "L1" "visited" "2024-01-15" "2024-01-20" (by decide) (by decide) (by decide) (by decide)
      (by decide) (by decide)).1,
   (first_observed_date_never_overwritten DATE_STRUCT "X" "inTransit" "2024-01-15" "2024-01-20"
      "L1" "visited" "2024-01-15" "2024-01-20" (by decide) (by decide) (by decide) (by decide)
      (by decide) (by decide)).2⟩

/-- C2: repeating the same step observation N times, N at least 1, leaves
the ledger equal to one application, and every one of the N calls returns
the annotation of the first call. -/
theorem recordStep_idempotent_after_first
    (l : Ledger) (k s d : String) (hs : s ≠ "pending") (N : Nat) (hN : 1 ≤ N) :
    recordStepIter l k s d N = recordStepIter l k s d 1
    ∧ ∀ i, 1 ≤ i → i ≤ N → recordStepAnn l k s d i = recordStepAnn l k s d 1 := by
  refine ⟨recordStepIter_stable l k s d N hN, fun i hi _ => ?_⟩
  unfold recordStepAnn
  cases Nat.lt_or_ge (i - 1) 1 with
  | inl h =>
    have : i - 1 = 0 := Nat.lt_one_iff.mp h
    rw [this]
  | inr h =>
    rw [recordStepIter_stable l k s d (i - 1) h]
    show (recordStepObservation ((recordStepObservation l k s d).1) k s d).2 = _
    rw [recordStep_again]
    rfl

/-- Witness for C2 at a concrete input with N equal 3. -/
theorem recordStep_idempotent_after_first_witness :
    ("inTransit" : String) ≠ "pending" ∧ 1 ≤ 3
    ∧ recordStepIter DATE_STRUCT "DEALER_DELIVERY" "inTransit" "2024-01-15" 3
        = recordStepIter DATE_STRUCT "DEALER_DELIVERY" "inTransit" "2024-01-15" 1
    ∧ recordStepAnn DATE_STRUCT "DEALER_DELIVERY" "inTransit" "2024-01-15" 2
        = recordStepAnn DATE_STRUCT "DEALER_DELIVERY" "inTransit" "2024-01-15" 1
    ∧ recordStepAnn DATE_STRUCT "DEALER_DELIVERY" "inTransit" "2024-01-15" 3
        = recordStepAnn DATE_STRUCT "DEALER_DELIVERY" "inTransit" "2024-01-15" 1 :=
  ⟨by decide, by decide,
   (recordStep_idempotent_after_first DATE_STRUCT "DEALER_DELIVERY" "inTransit" "2024-01-15"
      (by decide) 3 (by decide)).1,
   (recordStep_idempotent_after_first DATE_STRUCT "DEALER_DELIVERY" "inTransit" "2024-01-15"
      (by decide) 3 (by decide)).2 2 (by decide) (by decide),
   (recordStep_idempotent_after_first DATE_STRUCT "DEALER_DELIVERY" "inTransit" "2024-01-15"
      (by decide) 3 (by decide)).2 3 (by decide) (by decide)⟩

/-- C3: the sentinels are never recorded: observing status "pending" for a
new step inserts the step key with an empty date map and no "pending"
entry; observing "notVisited" for a new location inserts the location key
with an empty date map and no "notVisited" entry. -/
theorem sentinel_never_recorded (l : Ledger) (X loc d e : String)
    (hX : lookupA l.steps X = none) (hloc : lookupA l.deliveries loc = none) :
    lookupA ((recordStepObservation l X "pending" d).1).steps X = some []
    ∧ lookupA ((recordDeliveryObservation l loc "notVisited" e).1).deliveries loc = some [] := by
  constructor
  · rw [recordStep_eq]
    simp [stepEntryAfter, hX, lookupA_setA_self]
  · rw [recordDelivery_eq]
    simp [deliveryEntryAfter, hloc, lookupA_setA_self]

/-- Witness for C3 at concrete inputs. -/
theorem sentinel_never_recorded_witness :
    lookupA DATE_STRUCT.steps "X" = none
    ∧ lookupA ((recordStepObservation DATE_STRUCT "X" "pending" "2024-01-15").1).steps "X"
        = some []
    ∧ lookupA ((recordDeliveryObservation DATE_STRUCT "L1" "notVisited" "2024-01-15").1).deliveries
        "L1" = some [] :=
  ⟨by decide,
   (sentinel_never_recorded DATE_STRUCT "X" "L1" "2024-01-15" "2024-01-15"
      (by decide) (by decide)).1,
   (sentinel_never_recorded DATE_STRUCT "X" "L1" "2024-01-15" "2024-01-15"
      (by decide) (by decide)).2⟩

/-- C4: the annotation joins all recorded pairs for the step in insertion
order separated by " | ": a fresh step observed at "inTransit" on d1 and
then "delivered" on d2 yields exactly the string
inTransit-colon-d1-bar-delivered-colon-d2, not sorted. No order assumption
between d1 and d2 is needed. -/
theorem annotation_insertion_order (l : Ledger) (d1 d2 : String)
    (hX : lookupA l.steps "X" = none) :
    (recordStepObservation ((recordStepObservation l "X" "inTransit" d1).1)
        "X" "delivered" d2).2
      = "inTransit: " ++ d1 ++ " | " ++ ("delivered: " ++ d2) := by
  have h1 : ("inTransit" : String) ≠ "pending" := by decide
  have h2 : ("delivered" : String) ≠ "pending" := by decide
  have h3 : ("inTransit" : String) ≠ "delivered" := by decide
  rw [recordStep_eq, recordStep_eq]
  simp only [stepEntryAfter, hX, Option.getD_none, lookupA_nil, lookupA_setA_self,
    Option.getD_some, true_and, if_pos h1]
  have hcond : lookupA (setA ([] : DateMap) "inTransit" d1) "delivered" = none ∧
      ("delivered" : String) ≠ "pending" := by
    refine ⟨?_, h2⟩
    simp [setA, lookupA, h3]
  rw [if_pos hcond]
  simp [setA, lookupA, h3, datePair, intercalate_two, String.append_assoc]

/-- Witness for C4 at concrete inputs. -/
theorem annotation_insertion_order_witness :
    lookupA DATE_STRUCT.steps "X" = none
    ∧ (recordStepObservation ((recordStepObservation DATE_STRUCT "X" "inTransit" "2024-01-15").1)
        "X" "delivered" "2024-01-20").2
      = "inTransit: " ++ "2024-01-15" ++ " | " ++ ("delivered: " ++ "2024-01-20") :=
  ⟨by decide, annotation_insertion_order DATE_STRUCT "2024-01-15" "2024-01-20" (by decide)⟩

/-- C5: persistence round-trips: Save of a ledger under an order file name
followed by Load of the same name returns exactly the saved ledger. -/
theorem save_load_roundtrip (g l : Ledger) (fs : FS) (orderId : String) :
    load_dates g (save_dates fs (orderId ++ ".json") l) (orderId ++ ".json")
      = .ok (orderId ++ ".json", l) := by
  simp [load_dates, save_dates, lookupA_setA_self]

/-- C6 as stated is false: Load for an absent file hands back the shared
DATE_STRUCT object, which an earlier fileless order of the same run has
mutated. Processing order "A" (no prior file, one step "PRODUCTION" at
"completed") leaves the global non-empty; the subsequent Load for order
"B", whose file is also absent, returns that non-empty ledger and not the
empty one. -/
theorem load_absent_empty_counterexample :
    print_order DATE_STRUCT [] "A" [("PRODUCTION", { location := "", status := "completed" })]
        [] "2024-01-15" true
      = .ok { g := ⟨[("PRODUCTION", [("completed", "2024-01-15")])], []⟩,
              fs := [("A.json", some ⟨[("PRODUCTION", [("completed", "2024-01-15")])], []⟩)],
              stepTable := [["Step", "Location", "Status", "Dates"],
                            ["PRODUCTION", "", "completed", "completed: 2024-01-15"]],
              deliveryTable := [] }
    ∧ lookupA ([("A.json", some (⟨[("PRODUCTION", [("completed", "2024-01-15")])], []⟩ : Ledger))] : FS)
        "B.json" = none
    ∧ load_dates ⟨[("PRODUCTION", [("completed", "2024-01-15")])], []⟩
        [("A.json", some ⟨[("PRODUCTION", [("completed", "2024-01-15")])], []⟩)] "B.json"
      = .ok ("B.json", ⟨[("PRODUCTION", [("completed", "2024-01-15")])], []⟩)
    ∧ (⟨[("PRODUCTION", [("completed", "2024-01-15")])], []⟩ : Ledger) ≠ ⟨[], []⟩ :=
  ⟨rfl, rfl, rfl, by decide⟩

/-- C6 amended: Load for an order with no persisted file returns the current
value of the shared DATE_STRUCT global; that value is the empty ledger with
both sub-mappings empty as long as the global still holds its initial
value, i.e. before any fileless order of the same run has recorded an
observation. -/
theorem load_absent_returns_global (g : Ledger) (fs : FS) (f : String)
    (habs : lookupA fs f = none) :
    load_dates g fs f = .ok (f, g)
    ∧ load_dates DATE_STRUCT fs f = .ok (f, ⟨[], []⟩) := by
  constructor <;> simp [load_dates, habs, DATE_STRUCT]

/-- Witness for the amended C6 at concrete inputs. -/
theorem load_absent_returns_global_witness :
    lookupA ([("OTHER.json", some DATE_STRUCT)] : FS) "ORD1.json" = none
    ∧ load_dates ⟨[("S", [("done", "2024-01-01")])], []⟩ [("OTHER.json", some DATE_STRUCT)]
        "ORD1.json" = .ok ("ORD1.json", ⟨[("S", [("done", "2024-01-01")])], []⟩)
    ∧ load_dates DATE_STRUCT [("OTHER.json", some DATE_STRUCT)] "ORD1.json"
        = .ok ("ORD1.json", ⟨[], []⟩) :=
  ⟨by decide,
   (load_absent_returns_global ⟨[("S", [("done", "2024-01-01")])], []⟩
      [("OTHER.json", some DATE_STRUCT)] "ORD1.json" (by decide)).1,
   (load_absent_returns_global ⟨[("S", [("done", "2024-01-01")])], []⟩
      [("OTHER.json", some DATE_STRUCT)] "ORD1.json" (by decide)).2⟩

/-- C7: with date-tracking disabled, print_order passes the global and the
file store through untouched and the tables are built from the snapshot
alone, with no annotation column (step rows have 3 cells, delivery rows 5);
with tracking enabled, the order file exists in the store after the call,
whether or not the ledger changed. -/
theorem tracking_disabled_frame (g : Ledger) (fs : FS) (oid today : String)
    (steps : List (String × StepState)) (dl : List DeliveryEvent)
    (hparse : lookupA fs (oid ++ ".json") ≠ some none) :
    print_order g fs oid steps dl today false
      = .ok { g := g, fs := fs,
              stepTable :=
                if steps.isEmpty then []
                else ["Step", "Location", "Status"] :: stepRowsPlain steps,
              deliveryTable :=
                if dl.isEmpty then []
                else ["Loc. Code", "Location", "Loc. Type", "Transport", "Visited"] ::
                  deliveryRowsPlain dl }
    ∧ (∀ row ∈ stepRowsPlain steps, row.length = 3)
    ∧ (∀ row ∈ deliveryRowsPlain dl, row.length = 5)
    ∧ (print_order g fs oid steps dl today true).map
        (fun r => (lookupA r.fs (oid ++ ".json")).isSome) = .ok true := by
  refine ⟨rfl, ?_, ?_, ?_⟩
  · intro row hrow
    simp only [stepRowsPlain, List.mem_map] at hrow
    obtain ⟨kv, hkv, hrw⟩ := hrow
    rw [← hrw]
    rfl
  · intro row hrow
    simp only [deliveryRowsPlain, List.mem_map] at hrow
    obtain ⟨d, hd, hrw⟩ := hrow
    rw [← hrw]
    rfl
  · cases hl : lookupA fs (oid ++ ".json") with
    | none =>
      simp [print_order, load_dates, hl, save_dates, Except.map, Except.bind, bind,
        lookupA_setA_self]
    | some o =>
      cases o with
      | none => exact absurd hl hparse
      | some l0 =>
        simp [print_order, load_dates, hl, save_dates, Except.map, Except.bind, bind,
          lookupA_setA_self]

/-- Witness for C7 at concrete inputs. -/
theorem tracking_disabled_frame_witness :
    lookupA ([] : FS) ("ORD1" ++ ".json") ≠ some none
    ∧ print_order DATE_STRUCT [] "ORD1"
        [("PRODUCTION", { location := "", status := "completed" })]
        [{ locationCode := "L1", countryCode := "GB", locationName := "Port", countryName := "UK",
           destinationType := "port", transportMethod := "ship", isVisited := "visited" }]
        "2024-01-15" false
      = .ok { g := DATE_STRUCT, fs := [],
              stepTable := [["Step", "Location", "Status"], ["PRODUCTION", "", "completed"]],
              deliveryTable := [["Loc. Code", "Location", "Loc. Type", "Transport", "Visited"],
                                ["L1, GB", "Port, UK", "port", "ship", "visited"]] }
    ∧ (print_order DATE_STRUCT [] "ORD1"
        [("PRODUCTION", { location := "", status := "completed" })]
        [{ locationCode := "L1", countryCode := "GB", locationName := "Port", countryName := "UK",
           destinationType := "port", transportMethod := "ship", isVisited := "visited" }]
        "2024-01-15" true).map (fun r => (lookupA r.fs ("ORD1" ++ ".json")).isSome) = .ok true :=
  ⟨by decide,
   (tracking_disabled_frame DATE_STRUCT [] "ORD1" "2024-01-15"
      [("PRODUCTION", { location := "", status := "completed" })]
      [{ locationCode := "L1", countryCode := "GB", locationName := "Port", countryName := "UK",
         destinationType := "port", transportMethod := "ship", isVisited := "visited" }]
      (by decide)).1,
   (tracking_disabled_frame DATE_STRUCT [] "ORD1" "2024-01-15"
      [("PRODUCTION", { location := "", status := "completed" })]
      [{ locationCode := "L1", countryCode := "GB", locationName := "Port", countryName := "UK",
         destinationType := "port", transportMethod := "ship", isVisited := "visited" }]
      (by decide)).2.2.2⟩

/-- C8: delivery observations are keyed by location code only: two
observations with the same location code and distinct non-sentinel visited
states land in the single deliveries slot of that code, and the annotation
of the later observation carries the date recorded by the earlier one. -/
theorem delivery_locationCode_collision (l : Ledger) (loc v1 v2 today : String)
    (hloc : lookupA l.deliveries loc = none)
    (h1 : v1 ≠ "notVisited") (h2 : v2 ≠ "notVisited") (h12 : v1 ≠ v2) :
    lookupA ((recordDeliveryObservation ((recordDeliveryObservation l loc v1 today).1)
        loc v2 today).1).deliveries loc = some [(v1, today), (v2, today)]
    ∧ (recordDeliveryObservation ((recordDeliveryObservation l loc v1 today).1)
        loc v2 today).2 = v1 ++ ": " ++ today ++ " | " ++ (v2 ++ ": " ++ today) := by
  rw [recordDelivery_eq, recordDelivery_eq]
  simp only [deliveryEntryAfter, hloc, Option.getD_none, lookupA_nil, lookupA_setA_self,
    Option.getD_some, true_and, if_pos h1]
  have hcond : lookupA (setA ([] : DateMap) v1 today) v2 = none ∧ v2 ≠ "notVisited" := by
    refine ⟨?_, h2⟩
    simp [setA, lookupA, h12]
  rw [if_pos hcond]
  constructor
  · simp [setA, lookupA, h12]
  · simp [setA, lookupA, h12, datePair, intercalate_two, String.append_assoc]

/-- Witness for C8 at concrete inputs. -/
theorem delivery_locationCode_collision_witness :
    lookupA DATE_STRUCT.deliveries "L1" = none ∧ ("arrived" : String) ≠ "visited"
    ∧ lookupA ((recordDeliveryObservation
        ((recordDeliveryObservation DATE_STRUCT "L1" "visited" "2024-01-15").1)
        "L1" "arrived" "2024-01-15").1).deliveries "L1"
        = some [("visited", "2024-01-15"), ("arrived", "2024-01-15")]
    ∧ (recordDeliveryObservation
        ((recordDeliveryObservation DATE_STRUCT "L1" "visited" "2024-01-15").1)
        "L1" "arrived" "2024-01-15").2
        = "visited" ++ ": " ++ "2024-01-15" ++ " | " ++ ("arrived" ++ ": " ++ "2024-01-15") :=
  ⟨by decide, by decide,
   (delivery_locationCode_collision DATE_STRUCT "L1" "visited" "arrived" "2024-01-15"
      (by decide) (by decide) (by decide) (by decide)).1,
   (delivery_locationCode_collision DATE_STRUCT "L1" "visited" "arrived" "2024-01-15"
      (by decide) (by decide) (by decide) (by decide)).2⟩

/-- C9: a ledger file that exists but whose content json.load cannot parse
makes Load fail with the propagated parse error instead of falling back to
the empty ledger (toyota.py has no try/except around json.load). -/
theorem load_malformed_propagates (g : Ledger) (fs : FS) (f : String)
    (hbad : lookupA fs f = some none) :
    load_dates g fs f = .error "json.load: malformed ledger file" := by
  simp [load_dates, hbad]

/-- Witness for C9 at concrete inputs. -/
theorem load_malformed_propagates_witness :
    lookupA ([("ORD1.json", (none : Option Ledger))] : FS) "ORD1.json" = some none
    ∧ load_dates DATE_STRUCT [("ORD1.json", none)] "ORD1.json"
        = .error "json.load: malformed ledger file" :=
  ⟨by decide,
   load_malformed_propagates DATE_STRUCT [("ORD1.json", none)] "ORD1.json" (by decide)⟩

/-- C10: Load for an absent file returns the shared DATE_STRUCT object, not
a fresh instance: after processing a first fileless order with tracking
enabled, the global carries its observations, and the Load performed for a
second fileless order returns exactly that mutated ledger, observations
included. -/
theorem shared_global_leaks_across_orders
    (fs : FS) (A B k today : String) (stp : StepState)
    (hA : lookupA fs (A ++ ".json") = none)
    (hB : lookupA fs (B ++ ".json") = none)
    (hAB : B ++ ".json" ≠ A ++ ".json")
    (hs : stp.status ≠ "pending") :
    print_order DATE_STRUCT fs A [(k, stp)] [] today true
      = .ok { g := ⟨[(k, [(stp.status, today)])], []⟩,
              fs := setA fs (A ++ ".json") (some ⟨[(k, [(stp.status, today)])], []⟩),
              stepTable := [["Step", "Location", "Status", "Dates"],
                            [k, stp.location, stp.status, stp.status ++ ": " ++ today]],
              deliveryTable := [] }
    ∧ load_dates (⟨[(k, [(stp.status, today)])], []⟩ : Ledger)
        (setA fs (A ++ ".json") (some ⟨[(k, [(stp.status, today)])], []⟩)) (B ++ ".json")
      = .ok (B ++ ".json", ⟨[(k, [(stp.status, today)])], []⟩)
    ∧ stepDate (⟨[(k, [(stp.status, today)])], []⟩ : Ledger) k stp.status = some today := by
  refine ⟨?_, ?_, ?_⟩
  · simp [print_order, load_dates, hA, save_dates, Except.bind, bind, stepRowsTracked,
      deliveryRowsTracked, recordStep_eq, stepEntryAfter, DATE_STRUCT, hs, setA, lookupA,
      datePair, intercalate_one]
  · have hne := lookupA_setA_ne fs (A ++ ".json") (B ++ ".json")
      (some (⟨[(k, [(stp.status, today)])], []⟩ : Ledger)) hAB
    simp [load_dates, hne, hB]
  · simp [stepDate, lookupA]

/-- Witness for C10 at concrete inputs. -/
theorem shared_global_leaks_across_orders_witness :
    lookupA ([] : FS) ("ORD1" ++ ".json") = none
    ∧ ("ORD2" ++ ".json" : String) ≠ "ORD1" ++ ".json"
    ∧ print_order DATE_STRUCT [] "ORD1" [("PRODUCTION", { location := "", status := "completed" })]
        [] "2024-01-15" true
      = .ok { g := ⟨[("PRODUCTION", [("completed", "2024-01-15")])], []⟩,
              fs := setA [] ("ORD1" ++ ".json")
                (some ⟨[("PRODUCTION", [("completed", "2024-01-15")])], []⟩),
              stepTable := [["Step", "Location", "Status", "Dates"],
                            ["PRODUCTION", "", "completed", "completed" ++ ": " ++ "2024-01-15"]],
              deliveryTable := [] }
    ∧ load_dates (⟨[("PRODUCTION", [("completed", "2024-01-15")])], []⟩ : Ledger)
        (setA [] ("ORD1" ++ ".json") (some ⟨[("PRODUCTION", [("completed", "2024-01-15")])], []⟩))
        ("ORD2" ++ ".json")
      = .ok ("ORD2" ++ ".json", ⟨[("PRODUCTION", [("completed", "2024-01-15")])], []⟩)
    ∧ stepDate (⟨[("PRODUCTION", [("completed", "2024-01-15")])], []⟩ : Ledger) "PRODUCTION"
        "completed" = some "2024-01-15" :=
  ⟨by decide, by decide,
   (shared_global_leaks_across_orders [] "ORD1" "ORD2" "PRODUCTION" "2024-01-15"
      { location := "", status := "completed" } (by decide) (by decide) (by decide) (by decide)).1,
   (shared_global_leaks_across_orders [] "ORD1" "ORD2" "PRODUCTION" "2024-01-15"
      { location := "", status := "completed" } (by decide) (by decide) (by decide) (by decide)).2.1,
   (shared_global_leaks_across_orders [] "ORD1" "ORD2" "PRODUCTION" "2024-01-15"
      { location := "", status := "completed" } (by decide) (by decide) (by decide) (by decide)).2.2⟩

end Toyota
